import Mathlib

/-!
Verification of the model-provisioning scripts of voipglot-win
(`scripts/setup-vosk.py`, `scripts/setup-ct2.py`, `scripts/setup-coqui.py`)
against their natural-language specification.

The scripts are embedded shallowly:

* A filesystem path is a list of components (`FsPath`); the filesystem is the
  list of paths that currently exist (`FS`).  A path is observable
  (`existsAt`) when it is, or is an ancestor of, a member of the filesystem.
* Network and toolchain calls are modelled by environment flags saying
  whether each external operation succeeds, together with the files it
  would produce; the embedding then replays the script's control flow
  exactly, recording the exit code, the final filesystem, the number of
  remote operations attempted, the printed messages, and the sequence of
  externally observable filesystem states.
-/

/-- A filesystem path, as its list of components. -/
abbrev FsPath := List String

/-- The filesystem: the list of paths that exist (directories and files). -/
abbrev FS := List FsPath

/-- A path is externally observable when it is, or is an ancestor of, an
existing path. -/
def existsAt (fs : FS) (p : FsPath) : Bool :=
  fs.any (fun q => p.isPrefixOf q)

/-- `shutil.rmtree p` (guarded by `os.path.exists` in the scripts, which is
the same as unconditional filtering): every path at or below `p` is removed. -/
def rmtree (fs : FS) (p : FsPath) : FS :=
  fs.filter (fun q => !(p.isPrefixOf q))

/-- `os.remove p`: the single path `p` is removed. -/
def removeFile (fs : FS) (p : FsPath) : FS :=
  fs.filter (fun q => !(q == p))

/-- Where one path goes under `shutil.move src dst` (with `dst` absent):
paths at or below `src` are re-rooted at `dst`, others are untouched. -/
def movePath (src dst q : FsPath) : FsPath :=
  if src.isPrefixOf q then dst ++ q.drop src.length else q

/-- `shutil.move src dst` as a single atomic filesystem transition. -/
def moveTree (fs : FS) (src dst : FsPath) : FS :=
  fs.map (movePath src dst)

/-- The sibling path obtained by appending `s` to the last component, as in
`output_dir + ".zip"` and `output_dir + ".tmp"` in the scripts. -/
def addSuffix (p : FsPath) (s : String) : FsPath :=
  p.dropLast ++ [p.getLastD "" ++ s]

/-- `os.path.dirname`. -/
def dirname (p : FsPath) : FsPath :=
  p.dropLast

/-- Split a character list at every occurrence of `c` (the separator is
dropped), like `str.split`. -/
def splitOnChar (c : Char) : List Char → List (List Char)
  | [] => [[]]
  | x :: xs =>
    let r := splitOnChar c xs
    if x = c then [] :: r
    else
      match r with
      | [] => [[x]]
      | y :: ys => (x :: y) :: ys

/-- Take characters up to (excluding) the first one satisfying `p`. -/
def takeUntil (p : Char → Bool) : List Char → List Char
  | [] => []
  | x :: xs => if p x then [] else x :: takeUntil p xs

/-- Does `needle` occur as a contiguous run inside the character list? -/
def hasSub (needle : List Char) : List Char → Bool
  | [] => needle.isEmpty
  | c :: rest => needle.isPrefixOf (c :: rest) || hasSub needle rest

/-- Substring test on strings (used to check what an error message names). -/
def containsStr (s sub : String) : Bool :=
  hasSub sub.data s.data

/-- Lexicographic comparison of `sys.version_info` pairs. -/
def verLt (a b : Nat × Nat) : Bool :=
  a.1 < b.1 || (a.1 == b.1 && a.2 < b.2)

/-- Result of running one script: process exit code, final filesystem,
number of remote (network/toolchain) operations attempted, printed
messages, and the sequence of externally observable filesystem states. -/
structure RunResult where
  exit : Nat
  fs : FS
  net : Nat
  msgs : List String
  states : List FS

/-! ### setup-vosk.py (direct-download variant) -/

/-- Environment for a `setup-vosk.py` run: initial filesystem, whether the
network retrieval succeeds, whether a failed retrieval leaves a partly
written archive file behind, and the archive contents.  Each archive entry
is a path relative to the extraction directory together with a flag saying
whether extracting it succeeds; `zipfile` extracts entries in order and
raises at the first bad one (an unreadable archive is the case where the
first entry already fails). -/
structure VoskEnv where
  fs : FS
  downloadOk : Bool
  downloadLeavesZip : Bool
  archive : List (FsPath × Bool)

/-- Command line of `setup-vosk.py`: `--url` and optional `--output-dir`. -/
structure VoskArgs where
  url : String
  output_dir : Option FsPath

/-- `get_model_name_from_url`: basename of the URL path (query and fragment
stripped, as `urlparse` does), with a trailing `.zip` removed. -/
def get_model_name_from_url (url : String) : String :=
  let path := takeUntil (fun c => c = '?' || c = '#') url.data
  let filename := (splitOnChar '/' path).getLastD []
  if (['.', 'z', 'i', 'p'] : List Char).isSuffixOf filename then
    ⟨filename.take (filename.length - 4)⟩
  else ⟨filename⟩

/-- The output directory computed by `main`: the `--output-dir` argument
(or `models/`) joined with the URL-derived model name. -/
def vosk_output_dir (args : VoskArgs) : FsPath :=
  match args.output_dir with
  | some d => d ++ [get_model_name_from_url args.url]
  | none => ["models", get_model_name_from_url args.url]

/-- `zip_ref.extractall base`: entries are written one after the other into
`base`; extraction stops, raising, at the first bad entry.  Returns the
success flag, the final filesystem and the intermediate observable states. -/
def extract_all (base : FsPath) (entries : List (FsPath × Bool)) (fs : FS) :
    Bool × FS × List FS :=
  match entries with
  | [] => (true, fs, [])
  | e :: rest =>
    if e.2 then
      let fs1 := (base ++ e.1) :: fs
      let r := extract_all base rest fs1
      (r.1, r.2.1, fs1 :: r.2.2)
    else (false, fs, [])

/-- `download_and_extract`: retrieve the archive to `output_dir + ".zip"`,
extract it into `dirname output_dir`, delete the archive; on any failure
delete the archive file (if present) and exit 1. -/
def download_and_extract (env : VoskEnv) (output_dir : FsPath) (fs : FS) :
    RunResult :=
  let zip_path := addSuffix output_dir ".zip"
  if env.downloadOk then
    let fs1 := zip_path :: fs
    let r := extract_all (dirname output_dir) env.archive fs1
    if r.1 then
      let fsF := removeFile r.2.1 zip_path
      { exit := 0, fs := fsF, net := 1,
        msgs := ["Model downloaded and extracted successfully!"],
        states := fs1 :: r.2.2 ++ [fsF] }
    else
      let fsF := removeFile r.2.1 zip_path
      { exit := 1, fs := fsF, net := 1,
        msgs := ["Error during download/extract"],
        states := fs1 :: r.2.2 ++ [fsF] }
  else
    let fs1 := if env.downloadLeavesZip then zip_path :: fs else fs
    let fsF := removeFile fs1 zip_path
    { exit := 1, fs := fsF, net := 1,
      msgs := ["Error during download/extract"],
      states := [fs1, fsF] }

/-- `main` of `setup-vosk.py`: presence check on the output directory, then
`os.makedirs` on its parent, then `download_and_extract`. -/
def vosk_main (env : VoskEnv) (args : VoskArgs) : RunResult :=
  let out := vosk_output_dir args
  if existsAt env.fs out then
    { exit := 0, fs := env.fs, net := 0,
      msgs := ["Model directory already exists"], states := [env.fs] }
  else
    let fs1 := dirname out :: env.fs
    let r := download_and_extract env out fs1
    { r with states := env.fs :: fs1 :: r.states }

/-- What the direct-download destination is expected to contain once the
run has finished: every archive entry, extracted under the destination's
parent directory. -/
def vosk_complete (s : FS) (out : FsPath) (archive : List (FsPath × Bool)) :
    Prop :=
  ∀ e ∈ archive, (dirname out ++ e.1) ∈ s

instance (s : FS) (out : FsPath) (archive : List (FsPath × Bool)) :
    Decidable (vosk_complete s out archive) :=
  inferInstanceAs (Decidable (∀ e ∈ archive, (dirname out ++ e.1) ∈ s))

/-! ### setup-ct2.py (tool-mediated variant) -/

/-- The `REQUIRED_PACKAGES` list of `setup-ct2.py`. -/
def REQUIRED_PACKAGES : List String :=
  ["ctranslate2", "transformers", "torch", "huggingface_hub", "sentencepiece"]

/-- Environment for a `setup-ct2.py` run: initial filesystem, interpreter
version, importable packages, and the behaviour of the toolchain calls
inside the `try` block.  `convertFiles` and `tokFiles` are the files the
converter and `save_pretrained` write into the staging directory before
the corresponding success flag is consulted (so a failing step may already
have written part of its output). -/
structure Ct2Env where
  fs : FS
  version : Nat × Nat
  installed : List String
  downloadOk : Bool
  convertFiles : List String
  convertOk : Bool
  tokFiles : List String
  saveOk : Bool
  moveOk : Bool

/-- Command line of `setup-ct2.py`: `--model` and `--output`
(defaults `Helsinki-NLP/opus-mt-en-es` and `models/nllb-200-ct2`). -/
structure Ct2Args where
  model : String
  output : FsPath

/-- The packages found missing by the module-level check. -/
def ct2_missing (env : Ct2Env) : List String :=
  REQUIRED_PACKAGES.filter (fun p => !(env.installed.contains p))

/-- The staging directory `temp_dir = args.output + ".tmp"`. -/
def ct2_temp (args : Ct2Args) : FsPath :=
  addSuffix args.output ".tmp"

/-- The filesystem after `shutil.rmtree(temp_dir)` (stale leftover) and
`os.makedirs(temp_dir)` at the start of acquisition. -/
def ct2_fs1 (env : Ct2Env) (args : Ct2Args) : FS :=
  ct2_temp args :: rmtree env.fs (ct2_temp args)

/-- Write the named files one after the other directly under `base`,
recording each intermediate observable state. -/
def write_files (base : FsPath) (files : List String) (fs : FS) :
    FS × List FS :=
  match files with
  | [] => (fs, [])
  | f :: rest =>
    let fs1 := (base ++ [f]) :: fs
    let r := write_files base rest fs1
    (r.1, fs1 :: r.2)

/-- The filesystem and trace after `converter.convert(temp_dir)`. -/
def ct2_w1 (env : Ct2Env) (args : Ct2Args) : FS × List FS :=
  write_files (ct2_temp args) env.convertFiles (ct2_fs1 env args)

/-- The filesystem and trace after `tokenizer.save_pretrained(temp_dir)`. -/
def ct2_w2 (env : Ct2Env) (args : Ct2Args) : FS × List FS :=
  write_files (ct2_temp args) env.tokFiles (ct2_w1 env args).1

/-- The `except` handler of `setup-ct2.py`: remove the staging directory
if it exists (before exiting 1). -/
def ct2_fail (fs : FS) (temp : FsPath) : FS :=
  rmtree fs temp

/-- The whole `setup-ct2.py` process: module-level version and package
checks, presence check, staging setup, download, conversion, tokenizer
save, and the final `shutil.move` commit, with the source's error
handling. -/
def ct2_main (env : Ct2Env) (args : Ct2Args) : RunResult :=
  if verLt env.version (3, 8) then
    { exit := 1, fs := env.fs, net := 0,
      msgs := ["Error: Python 3.8 or newer is required."],
      states := [env.fs] }
  else if !(ct2_missing env).isEmpty then
    { exit := 1, fs := env.fs, net := 0,
      msgs := ["Error: Missing required packages: " ++
                 String.intercalate ", " (ct2_missing env),
               "Please install them with: python -m pip install " ++
                 String.intercalate " " (ct2_missing env)],
      states := [env.fs] }
  else
    let out := args.output
    let temp := ct2_temp args
    if existsAt env.fs out then
      { exit := 0, fs := env.fs, net := 0,
        msgs := ["Model directory already exists"], states := [env.fs] }
    else
      let fs1 := ct2_fs1 env args
      if !env.downloadOk then
        let fsF := ct2_fail fs1 temp
        { exit := 1, fs := fsF, net := 1,
          msgs := ["Error during model download/conversion"],
          states := [env.fs, fs1, fsF] }
      else
        let w1 := ct2_w1 env args
        if !env.convertOk then
          let fsF := ct2_fail w1.1 temp
          { exit := 1, fs := fsF, net := 1,
            msgs := ["Error during model download/conversion"],
            states := env.fs :: fs1 :: w1.2 ++ [fsF] }
        else
          let w2 := ct2_w2 env args
          if !env.saveOk then
            let fsF := ct2_fail w2.1 temp
            { exit := 1, fs := fsF, net := 1,
              msgs := ["Error during model download/conversion"],
              states := env.fs :: fs1 :: w1.2 ++ w2.2 ++ [fsF] }
          else if env.moveOk then
            let fsF := moveTree w2.1 temp out
            { exit := 0, fs := fsF, net := 1,
              msgs := ["Model conversion completed successfully!"],
              states := env.fs :: fs1 :: w1.2 ++ w2.2 ++ [fsF] }
          else
            let fsF := ct2_fail w2.1 temp
            { exit := 1, fs := fsF, net := 1,
              msgs := ["Error during model download/conversion"],
              states := env.fs :: fs1 :: w1.2 ++ w2.2 ++ [w2.1, fsF] }

/-- The destination is fully populated for the tool-mediated variant when
it holds every file the converter and the tokenizer save produced. -/
def ct2_complete (s : FS) (out : FsPath) (files : List String) : Prop :=
  out ∈ s ∧ ∀ f ∈ files, out ++ [f] ∈ s

instance (s : FS) (out : FsPath) (files : List String) :
    Decidable (ct2_complete s out files) :=
  inferInstanceAs (Decidable (out ∈ s ∧ ∀ f ∈ files, out ++ [f] ∈ s))

/-! ### setup-coqui.py -/

/-- Environment for a `setup-coqui.py` run: initial filesystem,
interpreter version (`sys.version_info`) and display string
(`sys.version`), whether `pip install --user TTS` succeeds, whether
`import TTS` then succeeds, whether initialising the TTS model (which
downloads it to the user cache) succeeds, and the files of the cached
model when the cache search locates it.  The user cache lives under the
home directory, outside the workspace filesystem modelled here, so the
three-candidate cache search is abstracted to whether it finds the model. -/
structure CoquiEnv where
  fs : FS
  version : Nat × Nat
  versionStr : String
  installOk : Bool
  importOk : Bool
  ttsInitOk : Bool
  cached : Option (List String)

/-- Result of a `setup-coqui.py` run; `pips` records the packages whose
automated `pip install` was attempted. -/
structure CoquiResult where
  exit : Nat
  fs : FS
  net : Nat
  msgs : List String
  pips : List String

/-- The single entry of `default_models` in `setup-coqui.py`. -/
def coquiModelName : String := "tts_models/en/ljspeech/fast_pitch"

/-- `pathlib` path division: split the model name on `/` and append the
components. -/
def splitPath (s : String) : FsPath :=
  (splitOnChar '/' s.data).map (fun l => ⟨l⟩)

/-- The local destination `Path("models") / model_name`. -/
def coqui_model_path : FsPath :=
  ["models"] ++ splitPath coquiModelName

/-- `check_python_version`: pass flag and printed messages. -/
def check_python_version (env : CoquiEnv) : Bool × List String :=
  if verLt env.version (3, 7) then
    (false, ["Error: Python 3.7 or higher is required",
             "Current version: " ++ env.versionStr])
  else (true, ["Python version: " ++ env.versionStr])

/-- `download_tts_model`: create the destination directory up front, then
initialise the TTS model (network download to the user cache; `False` on
failure), then, when the cached files are located, replace the destination
directory by a copy of them.  Returns the success flag and the filesystem. -/
def download_tts_model (env : CoquiEnv) (model_name : String)
    (dir : FsPath) (fs : FS) : Bool × FS :=
  let model_path := dir ++ splitPath model_name
  let fs1 := model_path :: fs
  if env.ttsInitOk then
    match env.cached with
    | some files =>
      let fs2 := if existsAt fs1 model_path then rmtree fs1 model_path else fs1
      (true, model_path :: files.map (fun f => model_path ++ [f]) ++ fs2)
    | none => (true, fs1)
  else (false, fs1)

/-- The whole `setup-coqui.py` process: version check, unconditional
best-effort `pip install --user TTS`, import re-verification, `models/`
creation, and the model download loop (whose failure is only a warning:
the script still exits 0). -/
def coqui_main (env : CoquiEnv) : CoquiResult :=
  let v := check_python_version env
  if !v.1 then
    { exit := 1, fs := env.fs, net := 0, msgs := v.2, pips := [] }
  else if !env.installOk then
    { exit := 1, fs := env.fs, net := 1,
      msgs := v.2 ++ ["Error installing TTS"], pips := ["TTS"] }
  else if !env.importOk then
    { exit := 1, fs := env.fs, net := 1,
      msgs := v.2 ++ ["Error importing TTS"], pips := ["TTS"] }
  else
    let fs1 := (["models"] : FsPath) :: env.fs
    let d := download_tts_model env coquiModelName ["models"] fs1
    { exit := 0, fs := d.2, net := 2,
      msgs := v.2 ++
        (if d.1 then ["Coqui TTS Setup Complete"]
         else ["Warning: Failed to download " ++ coquiModelName]),
      pips := ["TTS"] }

/-! ### Concrete runs used as inputs of counterexamples and witnesses -/

/-- URL whose basename is `m.zip`, so the model name is `m`. -/
def argsVoskM : VoskArgs :=
  { url := "http://h/m.zip", output_dir := none }

/-- A good two-entry archive rooted at the model name `m`. -/
def envVoskTwoEntries : VoskEnv :=
  { fs := [], downloadOk := true, downloadLeavesZip := false,
    archive := [(["m", "a"], true), (["m", "b"], true)] }

/-- Download succeeds but the second archive entry is bad. -/
def envVoskBadEntry : VoskEnv :=
  { fs := [], downloadOk := true, downloadLeavesZip := false,
    archive := [(["m", "a"], true), (["m", "b"], false)] }

/-- Network retrieval fails and leaves a partly written archive file. -/
def envVoskNoNet : VoskEnv :=
  { fs := [], downloadOk := false, downloadLeavesZip := true, archive := [] }

/-- A good archive whose internal root `other` differs from the model
name `m` derived from the URL. -/
def envVoskOther : VoskEnv :=
  { fs := [], downloadOk := true, downloadLeavesZip := false,
    archive := [(["other", "conf"], true)] }

/-- The destination directory already exists. -/
def envVoskHave : VoskEnv :=
  { fs := [["models", "m"]], downloadOk := true, downloadLeavesZip := false,
    archive := [(["m", "a"], true)] }

/-- The default command line of `setup-ct2.py`. -/
def argsCt2 : Ct2Args :=
  { model := "Helsinki-NLP/opus-mt-en-es", output := ["models", "nllb-200-ct2"] }

/-- A fully healthy `setup-ct2.py` environment. -/
def envCt2Ok : Ct2Env :=
  { fs := [], version := (3, 10), installed := REQUIRED_PACKAGES,
    downloadOk := true, convertFiles := ["model.bin"], convertOk := true,
    tokFiles := ["tokenizer.json"], saveOk := true, moveOk := true }

/-- Everything succeeds except the final `shutil.move`. -/
def envCt2MoveFail : Ct2Env :=
  { envCt2Ok with moveOk := false }

/-- The HuggingFace download fails. -/
def envCt2NoNet : Ct2Env :=
  { envCt2Ok with downloadOk := false }

/-- Interpreter version below the declared minimum (3, 8). -/
def envCt2Old : Ct2Env :=
  { envCt2Ok with version := (3, 7) }

/-- Only `torch` is importable; the other four packages are missing. -/
def envCt2MissingPkg : Ct2Env :=
  { envCt2Ok with installed := ["torch"] }

/-- The destination directory already exists. -/
def envCt2Have : Ct2Env :=
  { envCt2Ok with fs := [["models", "nllb-200-ct2"]] }

/-- A fully healthy `setup-coqui.py` environment. -/
def envCoquiOk : CoquiEnv :=
  { fs := [], version := (3, 10), versionStr := "3.10.4", installOk := true,
    importOk := true, ttsInitOk := true,
    cached := some ["model_file.pth", "config.json"] }

/-- The destination already holds a previously installed model file. -/
def envCoquiHave : CoquiEnv :=
  { envCoquiOk with fs := [coqui_model_path ++ ["old.pth"]] }

/-- The TTS model download (network acquisition) fails. -/
def envCoquiNetFail : CoquiEnv :=
  { envCoquiOk with ttsInitOk := false, cached := none }

/-- Interpreter version below the declared minimum (3, 7). -/
def envCoquiOld : CoquiEnv :=
  { envCoquiOk with version := (2, 7), versionStr := "2.7.18" }

/-- The `TTS` package cannot be imported even after the install attempt. -/
def envCoquiNoTTS : CoquiEnv :=
  { envCoquiOk with importOk := false }

/-! ### Basic lemmas about the filesystem model -/

theorem existsAt_eq_false_iff {fs : FS} {p : FsPath} :
    existsAt fs p = false ↔ ∀ q ∈ fs, ¬ p <+: q := by
  simp [existsAt, List.isPrefixOf_iff_prefix]

theorem isPrefixOf_eq_false_iff {p q : FsPath} :
    p.isPrefixOf q = false ↔ ¬ p <+: q := by
  rw [← List.isPrefixOf_iff_prefix, Bool.eq_false_iff]

theorem mem_rmtree {fs : FS} {p q : FsPath} :
    q ∈ rmtree fs p ↔ q ∈ fs ∧ ¬ p <+: q := by
  simp [rmtree, List.mem_filter, Bool.not_eq_true', isPrefixOf_eq_false_iff]

theorem mem_removeFile {fs : FS} {p q : FsPath} :
    q ∈ removeFile fs p ↔ q ∈ fs ∧ q ≠ p := by
  simp [removeFile, List.mem_filter]

theorem mem_moveTree {fs : FS} {src dst : FsPath} {q : FsPath} :
    q ∈ moveTree fs src dst ↔ ∃ r ∈ fs, movePath src dst r = q := by
  simp [moveTree, List.mem_map]

theorem addSuffix_eq {p : FsPath} (h : p ≠ []) (s : String) :
    ∃ d n, p = d ++ [n] ∧ addSuffix p s = d ++ [n ++ s] := by
  rcases List.eq_nil_or_concat p with rfl | ⟨d, n, rfl⟩
  · exact absurd rfl h
  · refine ⟨d, n, by simp [List.concat_eq_append], ?_⟩
    simp [addSuffix, List.concat_eq_append]

theorem append_ne_self {a s : String} (hs : s.length ≠ 0) : a ++ s ≠ a := by
  intro h
  have h2 := congrArg String.length h
  rw [String.length_append] at h2
  omega

theorem concat_prefix_iff {d : FsPath} {a b : String} {r : FsPath} :
    ((d ++ [a]) <+: (d ++ ([b] ++ r))) ↔ a = b := by
  rw [List.prefix_append_right_inj]
  simp [List.cons_prefix_cons]

theorem not_prefix_addSuffix {p : FsPath} (h : p ≠ []) {s : String}
    (hs : s.length ≠ 0) (r : FsPath) : ¬ p <+: (addSuffix p s ++ r) := by
  obtain ⟨d, n, hp, ha⟩ := addSuffix_eq h s
  subst hp
  rw [ha, List.append_assoc, concat_prefix_iff]
  exact fun hh => append_ne_self hs hh.symm

theorem not_addSuffix_prefix {p : FsPath} (h : p ≠ []) {s : String}
    (hs : s.length ≠ 0) (r : FsPath) : ¬ (addSuffix p s) <+: (p ++ r) := by
  obtain ⟨d, n, hp, ha⟩ := addSuffix_eq h s
  subst hp
  rw [ha, List.append_assoc, concat_prefix_iff]
  exact append_ne_self hs

theorem addSuffix_not_prefix_self {p : FsPath} (h : p ≠ []) {s : String}
    (hs : s.length ≠ 0) : ¬ p <+: addSuffix p s := by
  have h2 := not_prefix_addSuffix h hs []
  simpa using h2

theorem addSuffix_self_not_prefix {p : FsPath} (h : p ≠ []) {s : String}
    (hs : s.length ≠ 0) : ¬ (addSuffix p s) <+: p := by
  have h2 := not_addSuffix_prefix h hs []
  simpa using h2

theorem addSuffix_ne {p : FsPath} (h : p ≠ []) {s : String}
    (hs : s.length ≠ 0) : addSuffix p s ≠ p := by
  intro hh
  exact addSuffix_self_not_prefix h hs (by rw [hh])

theorem not_prefix_dirname {p : FsPath} (h : p ≠ []) : ¬ p <+: dirname p := by
  intro hh
  have h1 := hh.length_le
  rw [dirname, List.length_dropLast] at h1
  have h2 : 0 < p.length := List.length_pos.mpr h
  omega

theorem mem_write_files {base : FsPath} {files : List String} {fs : FS}
    {q : FsPath} :
    q ∈ (write_files base files fs).1 ↔
      q ∈ fs ∨ ∃ f ∈ files, q = base ++ [f] := by
  induction files generalizing fs with
  | nil => simp [write_files]
  | cons f rest ih =>
    simp only [write_files]
    rw [ih]
    simp only [List.mem_cons]
    constructor
    · rintro ((rfl | hq) | ⟨g, hg, rfl⟩)
      · exact Or.inr ⟨f, Or.inl rfl, rfl⟩
      · exact Or.inl hq
      · exact Or.inr ⟨g, Or.inr hg, rfl⟩
    · rintro (hq | ⟨g, (rfl | hg), rfl⟩)
      · exact Or.inl (Or.inr hq)
      · exact Or.inl (Or.inl rfl)
      · exact Or.inr ⟨g, hg, rfl⟩

theorem mem_write_files_states {base : FsPath} {files : List String} :
    ∀ {fs s : FS}, s ∈ (write_files base files fs).2 →
      ∀ {q : FsPath}, q ∈ s → q ∈ fs ∨ ∃ f ∈ files, q = base ++ [f] := by
  induction files with
  | nil =>
    intro fs s hs
    simp [write_files] at hs
  | cons f rest ih =>
    intro fs s hs q hq
    simp only [write_files, List.mem_cons] at hs
    rcases hs with rfl | hs
    · rcases List.mem_cons.mp hq with rfl | h
      · exact Or.inr ⟨f, List.mem_cons_self f rest, rfl⟩
      · exact Or.inl h
    · rcases ih hs hq with h | ⟨g, hg, he⟩
      · rcases List.mem_cons.mp h with rfl | h2
        · exact Or.inr ⟨f, List.mem_cons_self f rest, rfl⟩
        · exact Or.inl h2
      · exact Or.inr ⟨g, List.mem_cons_of_mem f hg, he⟩

theorem extract_all_fst (base : FsPath) (entries : List (FsPath × Bool)) :
    ∀ fs, (extract_all base entries fs).1 = entries.all (fun e => e.2) := by
  induction entries with
  | nil => intro fs; rfl
  | cons e rest ih =>
    intro fs
    cases he : e.2 <;> simp [extract_all, he, ih]

theorem hasSub_append_self (l r : List Char) : hasSub r (l ++ r) = true := by
  induction l with
  | nil =>
    cases r with
    | nil => rfl
    | cons c cs => simp [hasSub, List.isPrefixOf_iff_prefix]
  | cons x xs ih => simp [hasSub, ih]

theorem containsStr_append_self (pre s : String) :
    containsStr (pre ++ s) s = true := by
  have h : (pre ++ s).data = pre.data ++ s.data := String.data_append pre s
  rw [containsStr, h]
  exact hasSub_append_self pre.data s.data

theorem vosk_output_dir_ne_nil (args : VoskArgs) :
    vosk_output_dir args ≠ [] := by
  rcases args with ⟨u, _ | d⟩ <;> simp [vosk_output_dir]

/-! ### Invariants of the setup-ct2.py run -/

theorem ct2_fs1_not_under_out (env : Ct2Env) (args : Ct2Args)
    (h0 : args.output ≠ []) (h1 : existsAt env.fs args.output = false) :
    ∀ q ∈ ct2_fs1 env args, ¬ args.output <+: q := by
  intro q hq
  rcases List.mem_cons.mp hq with rfl | hq2
  · exact addSuffix_not_prefix_self h0 (by decide)
  · exact (existsAt_eq_false_iff.mp h1) q (mem_rmtree.mp hq2).1

theorem ct2_w1_not_under_out (env : Ct2Env) (args : Ct2Args)
    (h0 : args.output ≠ []) (h1 : existsAt env.fs args.output = false) :
    ∀ q ∈ (ct2_w1 env args).1, ¬ args.output <+: q := by
  intro q hq
  rcases mem_write_files.mp hq with hq2 | ⟨f, _, rfl⟩
  · exact ct2_fs1_not_under_out env args h0 h1 q hq2
  · exact not_prefix_addSuffix h0 (by decide) [f]

theorem ct2_w2_not_under_out (env : Ct2Env) (args : Ct2Args)
    (h0 : args.output ≠ []) (h1 : existsAt env.fs args.output = false) :
    ∀ q ∈ (ct2_w2 env args).1, ¬ args.output <+: q := by
  intro q hq
  rcases mem_write_files.mp hq with hq2 | ⟨f, _, rfl⟩
  · exact ct2_w1_not_under_out env args h0 h1 q hq2
  · exact not_prefix_addSuffix h0 (by decide) [f]

theorem ct2_w1_states_not_under_out (env : Ct2Env) (args : Ct2Args)
    (h0 : args.output ≠ []) (h1 : existsAt env.fs args.output = false) :
    ∀ s ∈ (ct2_w1 env args).2, ∀ q ∈ s, ¬ args.output <+: q := by
  intro s hs q hq
  rcases mem_write_files_states hs hq with hq2 | ⟨f, _, rfl⟩
  · exact ct2_fs1_not_under_out env args h0 h1 q hq2
  · exact not_prefix_addSuffix h0 (by decide) [f]

theorem ct2_w2_states_not_under_out (env : Ct2Env) (args : Ct2Args)
    (h0 : args.output ≠ []) (h1 : existsAt env.fs args.output = false) :
    ∀ s ∈ (ct2_w2 env args).2, ∀ q ∈ s, ¬ args.output <+: q := by
  intro s hs q hq
  rcases mem_write_files_states hs hq with hq2 | ⟨f, _, rfl⟩
  · exact ct2_w1_not_under_out env args h0 h1 q hq2
  · exact not_prefix_addSuffix h0 (by decide) [f]

/-- Once the run is past the precondition and presence checks, it ends in
one of the three failure shapes (staging removed by the handler) or in the
successful atomic move. -/
theorem ct2_final_fs_cases (env : Ct2Env) (args : Ct2Args)
    (h1 : existsAt env.fs args.output = false)
    (h2 : verLt env.version (3, 8) = false) (h3 : ct2_missing env = []) :
    ((ct2_main env args).exit = 1 ∧
      ((ct2_main env args).fs = ct2_fail (ct2_fs1 env args) (ct2_temp args) ∨
       (ct2_main env args).fs = ct2_fail (ct2_w1 env args).1 (ct2_temp args) ∨
       (ct2_main env args).fs = ct2_fail (ct2_w2 env args).1 (ct2_temp args))) ∨
    ((ct2_main env args).exit = 0 ∧
      (ct2_main env args).fs =
        moveTree (ct2_w2 env args).1 (ct2_temp args) args.output ∧
      env.downloadOk = true ∧ env.convertOk = true ∧ env.saveOk = true ∧
      env.moveOk = true) := by
  cases hd : env.downloadOk <;> cases hc : env.convertOk <;>
    cases hsv : env.saveOk <;> cases hm : env.moveOk <;>
      simp [ct2_main, h1, h2, h3, hd, hc, hsv, hm]

/-- After the successful move the destination is fully populated: it holds
every file the converter and the tokenizer save wrote into staging. -/
theorem ct2_move_complete (env : Ct2Env) (args : Ct2Args) :
    ct2_complete (moveTree (ct2_w2 env args).1 (ct2_temp args) args.output)
      args.output (env.convertFiles ++ env.tokFiles) := by
  constructor
  · apply mem_moveTree.mpr
    refine ⟨ct2_temp args, ?_, ?_⟩
    · exact mem_write_files.mpr (Or.inl (mem_write_files.mpr
        (Or.inl (List.mem_cons_self _ _))))
    · simp [movePath, List.isPrefixOf_iff_prefix, List.drop_length]
  · intro f hf
    apply mem_moveTree.mpr
    refine ⟨ct2_temp args ++ [f], ?_, ?_⟩
    · rcases List.mem_append.mp hf with hf1 | hf2
      · exact mem_write_files.mpr (Or.inl (mem_write_files.mpr
          (Or.inr ⟨f, hf1, rfl⟩)))
      · exact mem_write_files.mpr (Or.inr ⟨f, hf2, rfl⟩)
    · simp [movePath, List.isPrefixOf_iff_prefix, List.prefix_append,
        List.drop_left]

/-- After the run, whatever its outcome, nothing remains at or below the
staging directory. -/
theorem ct2_final_no_temp (env : Ct2Env) (args : Ct2Args)
    (h0 : args.output ≠ []) (h1 : existsAt env.fs args.output = false)
    (h2 : verLt env.version (3, 8) = false) (h3 : ct2_missing env = []) :
    existsAt (ct2_main env args).fs (ct2_temp args) = false := by
  rw [existsAt_eq_false_iff]
  intro q hq
  rcases ct2_final_fs_cases env args h1 h2 h3 with
    ⟨_, hfs | hfs | hfs⟩ | ⟨_, hfs, _⟩ <;> rw [hfs] at hq
  · exact (mem_rmtree.mp hq).2
  · exact (mem_rmtree.mp hq).2
  · exact (mem_rmtree.mp hq).2
  · rcases mem_moveTree.mp hq with ⟨r, _, rfl⟩
    rw [movePath]
    by_cases hp : (ct2_temp args).isPrefixOf r
    · rw [if_pos hp]
      exact not_addSuffix_prefix h0 (by decide) _
    · rw [if_neg hp]
      exact isPrefixOf_eq_false_iff.mp (Bool.eq_false_iff.mpr hp)

theorem not_under_rmtree {X : FS} {t out : FsPath}
    (hX : ∀ q ∈ X, ¬ out <+: q) : ∀ q ∈ rmtree X t, ¬ out <+: q :=
  fun q hq => hX q (mem_rmtree.mp hq).1

/-! ### Claims -/

/-- C1 (counterexample): the claim says that at every externally observable
moment the destination is either absent or fully populated, written once,
atomically, by a commit stage.  The direct-download variant refutes this:
`extractall` writes the archive entries one by one into the destination's
parent, so mid-extraction the destination directory exists while holding
only part of the archive.  Concretely, with archive entries `m/a` and `m/b`
and destination `models/m`, the state after the first entry has
`models/m` observable but `models/m/b` missing. -/
theorem c1_vosk_partial_visibility_counterexample :
    ¬ (∀ s ∈ (vosk_main envVoskTwoEntries argsVoskM).states,
        existsAt s (vosk_output_dir argsVoskM) = false ∨
        vosk_complete s (vosk_output_dir argsVoskM)
          envVoskTwoEntries.archive) := by
  decide

/-- C1 (amended): the invariant does hold for the tool-mediated variant
(`setup-ct2.py`): in a run whose destination is initially absent, every
externally observable filesystem state has the destination either absent
or fully populated (holding every converter and tokenizer file); the only
populated state is produced by the single `shutil.move` of the commit. -/
theorem c1_ct2_destination_atomic (env : Ct2Env) (args : Ct2Args)
    (h0 : args.output ≠ []) (h1 : existsAt env.fs args.output = false) :
    ∀ s ∈ (ct2_main env args).states,
      existsAt s args.output = false ∨
      ct2_complete s args.output (env.convertFiles ++ env.tokFiles) := by
  intro s hs
  cases h2 : verLt env.version (3, 8) with
  | true =>
    simp [ct2_main, h2] at hs
    subst hs
    exact Or.inl h1
  | false =>
    cases hM : ct2_missing env with
    | cons a l =>
      simp [ct2_main, h2, hM] at hs
      subst hs
      exact Or.inl h1
    | nil =>
      cases hd : env.downloadOk with
      | false =>
        simp [ct2_main, h2, hM, h1, hd] at hs
        rcases hs with rfl | rfl | rfl
        · exact Or.inl h1
        · exact Or.inl (existsAt_eq_false_iff.mpr
            (ct2_fs1_not_under_out env args h0 h1))
        · exact Or.inl (existsAt_eq_false_iff.mpr
            (not_under_rmtree (ct2_fs1_not_under_out env args h0 h1)))
      | true =>
        cases hc : env.convertOk with
        | false =>
          simp [ct2_main, h2, hM, h1, hd, hc] at hs
          rcases hs with rfl | rfl | hs | rfl
          · exact Or.inl h1
          · exact Or.inl (existsAt_eq_false_iff.mpr
              (ct2_fs1_not_under_out env args h0 h1))
          · exact Or.inl (existsAt_eq_false_iff.mpr
              (ct2_w1_states_not_under_out env args h0 h1 s hs))
          · exact Or.inl (existsAt_eq_false_iff.mpr
              (not_under_rmtree (ct2_w1_not_under_out env args h0 h1)))
        | true =>
          cases hsv : env.saveOk with
          | false =>
            simp [ct2_main, h2, hM, h1, hd, hc, hsv] at hs
            rcases hs with rfl | rfl | hs | hs | rfl
            · exact Or.inl h1
            · exact Or.inl (existsAt_eq_false_iff.mpr
                (ct2_fs1_not_under_out env args h0 h1))
            · exact Or.inl (existsAt_eq_false_iff.mpr
                (ct2_w1_states_not_under_out env args h0 h1 s hs))
            · exact Or.inl (existsAt_eq_false_iff.mpr
                (ct2_w2_states_not_under_out env args h0 h1 s hs))
            · exact Or.inl (existsAt_eq_false_iff.mpr
                (not_under_rmtree (ct2_w2_not_under_out env args h0 h1)))
          | true =>
            cases hm : env.moveOk with
            | true =>
              simp [ct2_main, h2, hM, h1, hd, hc, hsv, hm] at hs
              rcases hs with rfl | rfl | hs | hs | rfl
              · exact Or.inl h1
              · exact Or.inl (existsAt_eq_false_iff.mpr
                  (ct2_fs1_not_under_out env args h0 h1))
              · exact Or.inl (existsAt_eq_false_iff.mpr
                  (ct2_w1_states_not_under_out env args h0 h1 s hs))
              · exact Or.inl (existsAt_eq_false_iff.mpr
                  (ct2_w2_states_not_under_out env args h0 h1 s hs))
              · exact Or.inr (ct2_move_complete env args)
            | false =>
              simp [ct2_main, h2, hM, h1, hd, hc, hsv, hm] at hs
              rcases hs with rfl | rfl | hs | hs | rfl | rfl
              · exact Or.inl h1
              · exact Or.inl (existsAt_eq_false_iff.mpr
                  (ct2_fs1_not_under_out env args h0 h1))
              · exact Or.inl (existsAt_eq_false_iff.mpr
                  (ct2_w1_states_not_under_out env args h0 h1 s hs))
              · exact Or.inl (existsAt_eq_false_iff.mpr
                  (ct2_w2_states_not_under_out env args h0 h1 s hs))
              · exact Or.inl (existsAt_eq_false_iff.mpr
                  (ct2_w2_not_under_out env args h0 h1))
              · exact Or.inl (existsAt_eq_false_iff.mpr
                  (not_under_rmtree (ct2_w2_not_under_out env args h0 h1)))

/-- C1 (witness): the amended invariant evaluated on a healthy run of
`setup-ct2.py` with the default output directory. -/
theorem c1_ct2_destination_atomic_witness :
    argsCt2.output ≠ [] ∧ existsAt envCt2Ok.fs argsCt2.output = false ∧
    ∀ s ∈ (ct2_main envCt2Ok argsCt2).states,
      existsAt s argsCt2.output = false ∨
      ct2_complete s argsCt2.output
        (envCt2Ok.convertFiles ++ envCt2Ok.tokFiles) :=
  ⟨by decide, by decide,
   c1_ct2_destination_atomic envCt2Ok argsCt2 (by decide) (by decide)⟩

/-- C2 (counterexample): the claim says every variant short-circuits with
zero further side effects when the destination already exists.
`setup-coqui.py` has no presence check: with the destination already
present it still attempts the network download and rebuilds the
destination directory (network operations happen and the filesystem
changes). -/
theorem c2_coqui_no_short_circuit_counterexample :
    existsAt envCoquiHave.fs coqui_model_path = true ∧
    (coqui_main envCoquiHave).exit = 0 ∧
    (coqui_main envCoquiHave).net ≠ 0 ∧
    (coqui_main envCoquiHave).fs ≠ envCoquiHave.fs := by
  decide

/-- C2 (amended): the short-circuit does hold for the vosk and ct2
variants: if the destination exists when the run starts (and, for ct2,
the module-level version and package checks pass, since they run before
the presence check), the run exits 0, leaves the filesystem untouched and
performs no network or transformation work. -/
theorem c2_presence_short_circuit (venv : VoskEnv) (vargs : VoskArgs)
    (cenv : Ct2Env) (cargs : Ct2Args)
    (hv : existsAt venv.fs (vosk_output_dir vargs) = true)
    (h2 : verLt cenv.version (3, 8) = false) (h3 : ct2_missing cenv = [])
    (hc : existsAt cenv.fs cargs.output = true) :
    ((vosk_main venv vargs).exit = 0 ∧ (vosk_main venv vargs).fs = venv.fs ∧
      (vosk_main venv vargs).net = 0) ∧
    ((ct2_main cenv cargs).exit = 0 ∧ (ct2_main cenv cargs).fs = cenv.fs ∧
      (ct2_main cenv cargs).net = 0) := by
  constructor
  · simp [vosk_main, hv]
  · simp [ct2_main, h2, h3, hc]

/-- C2 (witness): the short-circuit on runs of the vosk and ct2 variants
whose destination directories already exist. -/
theorem c2_presence_short_circuit_witness :
    existsAt envVoskHave.fs (vosk_output_dir argsVoskM) = true ∧
    existsAt envCt2Have.fs argsCt2.output = true ∧
    (((vosk_main envVoskHave argsVoskM).exit = 0 ∧
      (vosk_main envVoskHave argsVoskM).fs = envVoskHave.fs ∧
      (vosk_main envVoskHave argsVoskM).net = 0) ∧
     ((ct2_main envCt2Have argsCt2).exit = 0 ∧
      (ct2_main envCt2Have argsCt2).fs = envCt2Have.fs ∧
      (ct2_main envCt2Have argsCt2).net = 0)) :=
  ⟨by decide, by decide,
   c2_presence_short_circuit envVoskHave argsVoskM envCt2Have argsCt2
     (by decide) (by decide) (by decide) (by decide)⟩

/-- C3 (counterexample): the claim says any failure strictly before the
commit leaves the destination absent.  `setup-coqui.py` refutes it:
`download_tts_model` creates the destination directory before the
network acquisition, so when that acquisition fails the destination
path exists afterwards. -/
theorem c3_coqui_failure_destination_remains_counterexample :
    envCoquiNetFail.ttsInitOk = false ∧
    existsAt (coqui_main envCoquiNetFail).fs coqui_model_path = true := by
  decide

/-- C3 (amended): pre-commit failures do leave the destination absent in
the tool-mediated variant (any failing download, conversion or tokenizer
save ends with the staging directory removed and nothing at the
destination), and in the direct-download variant for network failures
(only the archive file was written and it is deleted); a mid-extraction
failure of the direct-download variant and the coqui variant are the
exceptions. -/
theorem c3_precommit_failure_destination_absent (cenv : Ct2Env)
    (cargs : Ct2Args) (venv : VoskEnv) (vargs : VoskArgs)
    (h0 : cargs.output ≠ []) (h1 : existsAt cenv.fs cargs.output = false)
    (hz : cenv.downloadOk = false ∨ cenv.convertOk = false ∨
      cenv.saveOk = false)
    (hv1 : existsAt venv.fs (vosk_output_dir vargs) = false)
    (hvf : venv.downloadOk = false) :
    existsAt (ct2_main cenv cargs).fs cargs.output = false ∧
    existsAt (vosk_main venv vargs).fs (vosk_output_dir vargs) = false := by
  constructor
  · cases h2 : verLt cenv.version (3, 8) with
    | true => simp [ct2_main, h2]; exact h1
    | false =>
      cases hM : ct2_missing cenv with
      | cons a l => simp [ct2_main, h2, hM]; exact h1
      | nil =>
        rcases ct2_final_fs_cases cenv cargs h1 h2 hM with
          ⟨_, hfs | hfs | hfs⟩ | ⟨_, _, hd, hc, hsv, _⟩
        · rw [hfs]
          exact existsAt_eq_false_iff.mpr
            (not_under_rmtree (ct2_fs1_not_under_out cenv cargs h0 h1))
        · rw [hfs]
          exact existsAt_eq_false_iff.mpr
            (not_under_rmtree (ct2_w1_not_under_out cenv cargs h0 h1))
        · rw [hfs]
          exact existsAt_eq_false_iff.mpr
            (not_under_rmtree (ct2_w2_not_under_out cenv cargs h0 h1))
        · rcases hz with hz | hz | hz
          · rw [hd] at hz; cases hz
          · rw [hc] at hz; cases hz
          · rw [hsv] at hz; cases hz
  · have hfs : (vosk_main venv vargs).fs =
        removeFile (if venv.downloadLeavesZip then
            addSuffix (vosk_output_dir vargs) ".zip" ::
              (dirname (vosk_output_dir vargs) :: venv.fs)
          else dirname (vosk_output_dir vargs) :: venv.fs)
          (addSuffix (vosk_output_dir vargs) ".zip") := by
      simp [vosk_main, hv1, download_and_extract, hvf]
    rw [hfs, existsAt_eq_false_iff]
    intro q hq
    have hq1 := (mem_removeFile.mp hq).1
    have hne := vosk_output_dir_ne_nil vargs
    cases hlz : venv.downloadLeavesZip <;> rw [hlz] at hq1
    · rw [if_neg (by simp)] at hq1
      rcases List.mem_cons.mp hq1 with rfl | hq2
      · exact not_prefix_dirname hne
      · exact existsAt_eq_false_iff.mp hv1 q hq2
    · rw [if_pos rfl] at hq1
      rcases List.mem_cons.mp hq1 with rfl | hq2
      · exact addSuffix_not_prefix_self hne (by decide)
      · rcases List.mem_cons.mp hq2 with rfl | hq3
        · exact not_prefix_dirname hne
        · exact existsAt_eq_false_iff.mp hv1 q hq3

/-- C3 (witness): the amended claim on a ct2 run whose download fails and
a vosk run whose download fails leaving a partial archive file. -/
theorem c3_precommit_failure_destination_absent_witness :
    envCt2NoNet.downloadOk = false ∧ envVoskNoNet.downloadOk = false ∧
    existsAt (ct2_main envCt2NoNet argsCt2).fs argsCt2.output = false ∧
    existsAt (vosk_main envVoskNoNet argsVoskM).fs
      (vosk_output_dir argsVoskM) = false := by
  have h := c3_precommit_failure_destination_absent envCt2NoNet argsCt2
    envVoskNoNet argsVoskM (by decide) (by decide) (Or.inl (by decide))
    (by decide) (by decide)
  exact ⟨by decide, by decide, h.1, h.2⟩

theorem not_mem_removeFile (fs : FS) (p : FsPath) : p ∉ removeFile fs p :=
  fun hq => (mem_removeFile.mp hq).2 rfl

/-- C4: exit-code contract of the three variants.  The exit code is 0
exactly on success: for vosk, when the run short-circuits or download and
extraction all succeed; for ct2, when the version and package
preconditions hold and the run short-circuits or every stage up to and
including the commit move succeeds; for coqui, exactly when the version,
install and import preconditions hold (a model-download failure is by
design only a warning there, not a fatal failure).  Every fatal
precondition, transfer, conversion or commit failure yields the non-zero
exit code 1. -/
theorem c4_exit_codes (venv : VoskEnv) (vargs : VoskArgs) (cenv : Ct2Env)
    (cargs : Ct2Args) (qenv : CoquiEnv) :
    ((vosk_main venv vargs).exit = 0 ↔
      (existsAt venv.fs (vosk_output_dir vargs) = true ∨
       (venv.downloadOk = true ∧
        venv.archive.all (fun e => e.2) = true))) ∧
    ((ct2_main cenv cargs).exit = 0 ↔
      (verLt cenv.version (3, 8) = false ∧ ct2_missing cenv = [] ∧
       (existsAt cenv.fs cargs.output = true ∨
        (cenv.downloadOk = true ∧ cenv.convertOk = true ∧
         cenv.saveOk = true ∧ cenv.moveOk = true)))) ∧
    ((coqui_main qenv).exit = 0 ↔
      (verLt qenv.version (3, 7) = false ∧ qenv.installOk = true ∧
       qenv.importOk = true)) := by
  refine ⟨?_, ?_, ?_⟩
  · cases hp : existsAt venv.fs (vosk_output_dir vargs) <;>
      cases hd : venv.downloadOk <;>
        cases ha : venv.archive.all (fun e => e.2) <;>
          simp [vosk_main, download_and_extract, hp, hd, ha, extract_all_fst]
  · cases h2 : verLt cenv.version (3, 8) with
    | true => simp [ct2_main, h2]
    | false =>
      cases hM : ct2_missing cenv with
      | cons a l => simp [ct2_main, h2, hM]
      | nil =>
        cases hp : existsAt cenv.fs cargs.output <;>
          cases hd : cenv.downloadOk <;> cases hc : cenv.convertOk <;>
            cases hsv : cenv.saveOk <;> cases hm : cenv.moveOk <;>
              simp [ct2_main, h2, hM, hp, hd, hc, hsv, hm]
  · cases hv : verLt qenv.version (3, 7) <;> cases hi : qenv.installOk <;>
      cases him : qenv.importOk <;>
        simp [coqui_main, check_python_version, hv, hi, him]

/-- C5 (counterexample): the claim says that on a commit (move) failure
the StagingArea is left in place and no cleanup is attempted.  In the
code the move sits inside the same `try` block as the download and
conversion, and the `except` handler removes `temp_dir`.  Concretely,
with only the final move failing, the run exits 1 and nothing remains at
or below the staging directory — so it is not left in place. -/
theorem c5_commit_failure_staging_removed_counterexample :
    envCt2MoveFail.downloadOk = true ∧ envCt2MoveFail.convertOk = true ∧
    envCt2MoveFail.saveOk = true ∧ envCt2MoveFail.moveOk = false ∧
    (ct2_main envCt2MoveFail argsCt2).exit = 1 ∧
    existsAt (ct2_main envCt2MoveFail argsCt2).fs
      (ct2_temp argsCt2) = false := by
  decide

/-- C5 (amended): when the final move of the StagingArea fails, the
generic error handler of the `try` block runs: the error is surfaced via
the printed message and exit code 1, the StagingArea IS removed (cleanup
is attempted automatically), and the destination stays absent. -/
theorem c5_commit_failure_cleanup (env : Ct2Env) (args : Ct2Args)
    (h0 : args.output ≠ []) (h1 : existsAt env.fs args.output = false)
    (h2 : verLt env.version (3, 8) = false) (h3 : ct2_missing env = [])
    (hd : env.downloadOk = true) (hc : env.convertOk = true)
    (hsv : env.saveOk = true) (hm : env.moveOk = false) :
    (ct2_main env args).exit = 1 ∧
    existsAt (ct2_main env args).fs (ct2_temp args) = false ∧
    existsAt (ct2_main env args).fs args.output = false := by
  have hfs : (ct2_main env args).fs =
      rmtree (ct2_w2 env args).1 (ct2_temp args) := by
    simp [ct2_main, h1, h2, h3, hd, hc, hsv, hm, ct2_fail]
  refine ⟨?_, ?_, ?_⟩
  · simp [ct2_main, h1, h2, h3, hd, hc, hsv, hm]
  · rw [hfs]
    exact existsAt_eq_false_iff.mpr fun q hq => (mem_rmtree.mp hq).2
  · rw [hfs]
    exact existsAt_eq_false_iff.mpr
      (not_under_rmtree (ct2_w2_not_under_out env args h0 h1))

/-- C5 (witness): the amended behaviour on a run whose only failure is
the final move. -/
theorem c5_commit_failure_cleanup_witness :
    (ct2_main envCt2MoveFail argsCt2).exit = 1 ∧
    existsAt (ct2_main envCt2MoveFail argsCt2).fs
      (ct2_temp argsCt2) = false ∧
    existsAt (ct2_main envCt2MoveFail argsCt2).fs argsCt2.output = false :=
  c5_commit_failure_cleanup envCt2MoveFail argsCt2 (by decide) (by decide)
    (by decide) (by decide) (by decide) (by decide) (by decide) (by decide)

/-- C6: on any failure of the direct-download variant — network retrieval
failure (possibly leaving a partly written archive file) or extraction
failure after a successful download — the temporary archive file, which
is also this variant's StagingArea in the data model's sense (destination
path plus the reserved suffix `.zip`), is deleted by the error handler
before the run exits with code 1. -/
theorem c6_vosk_cleanup_on_failure (env : VoskEnv) (args : VoskArgs)
    (hp : existsAt env.fs (vosk_output_dir args) = false)
    (hf : env.downloadOk = false ∨
      env.archive.all (fun e => e.2) = false) :
    (vosk_main env args).exit = 1 ∧
    addSuffix (vosk_output_dir args) ".zip" ∉ (vosk_main env args).fs := by
  cases hd : env.downloadOk with
  | false =>
    refine ⟨?_, ?_⟩
    · simp [vosk_main, hp, download_and_extract, hd]
    · have hfs : (vosk_main env args).fs =
          removeFile (if env.downloadLeavesZip then
              addSuffix (vosk_output_dir args) ".zip" ::
                (dirname (vosk_output_dir args) :: env.fs)
            else dirname (vosk_output_dir args) :: env.fs)
            (addSuffix (vosk_output_dir args) ".zip") := by
        simp [vosk_main, hp, download_and_extract, hd]
      rw [hfs]
      exact not_mem_removeFile _ _
  | true =>
    have ha : env.archive.all (fun e => e.2) = false := by
      rcases hf with hf | hf
      · rw [hd] at hf; cases hf
      · exact hf
    refine ⟨?_, ?_⟩
    · simp [vosk_main, hp, download_and_extract, hd, extract_all_fst, ha]
    · have hfs : (vosk_main env args).fs =
          removeFile (extract_all (dirname (vosk_output_dir args))
              env.archive (addSuffix (vosk_output_dir args) ".zip" ::
                (dirname (vosk_output_dir args) :: env.fs))).2.1
            (addSuffix (vosk_output_dir args) ".zip") := by
        simp [vosk_main, hp, download_and_extract, hd, extract_all_fst, ha]
      rw [hfs]
      exact not_mem_removeFile _ _

/-- C6 (witness): cleanup after an extraction failure that follows a
successful download. -/
theorem c6_vosk_cleanup_on_failure_witness :
    envVoskBadEntry.downloadOk = true ∧
    envVoskBadEntry.archive.all (fun e => e.2) = false ∧
    (vosk_main envVoskBadEntry argsVoskM).exit = 1 ∧
    addSuffix (vosk_output_dir argsVoskM) ".zip" ∉
      (vosk_main envVoskBadEntry argsVoskM).fs := by
  have h := c6_vosk_cleanup_on_failure envVoskBadEntry argsVoskM (by decide)
    (Or.inr (by decide))
  exact ⟨by decide, by decide, h.1, h.2⟩

/-- C7: StagingArea lifecycle of the tool-mediated variant.  `temp_dir`
is deterministically the destination path plus the reserved suffix
`.tmp`, hence a distinct filesystem location; at the start of acquisition
it is created fresh (anything stale at or below it has been removed, so
only the directory itself lies under it); and after the run ends nothing
remains at or below it: it is consumed by the commit move on success and
removed by the error handler on failure. -/
theorem c7_ct2_staging_lifecycle (env : Ct2Env) (args : Ct2Args)
    (h0 : args.output ≠ []) (h1 : existsAt env.fs args.output = false)
    (h2 : verLt env.version (3, 8) = false) (h3 : ct2_missing env = []) :
    ct2_temp args = addSuffix args.output ".tmp" ∧
    ct2_temp args ≠ args.output ∧
    ct2_temp args ∈ ct2_fs1 env args ∧
    (∀ q ∈ ct2_fs1 env args, ct2_temp args <+: q → q = ct2_temp args) ∧
    existsAt (ct2_main env args).fs (ct2_temp args) = false := by
  refine ⟨rfl, addSuffix_ne h0 (by decide), List.mem_cons_self _ _, ?_, ?_⟩
  · intro q hq hpre
    rcases List.mem_cons.mp hq with rfl | hq2
    · rfl
    · exact absurd hpre (mem_rmtree.mp hq2).2
  · exact ct2_final_no_temp env args h0 h1 h2 h3

/-- C7 (witness): the staging lifecycle on a healthy run. -/
theorem c7_ct2_staging_lifecycle_witness :
    ct2_temp argsCt2 = addSuffix argsCt2.output ".tmp" ∧
    ct2_temp argsCt2 ≠ argsCt2.output ∧
    ct2_temp argsCt2 ∈ ct2_fs1 envCt2Ok argsCt2 ∧
    (∀ q ∈ ct2_fs1 envCt2Ok argsCt2,
      ct2_temp argsCt2 <+: q → q = ct2_temp argsCt2) ∧
    existsAt (ct2_main envCt2Ok argsCt2).fs (ct2_temp argsCt2) = false :=
  c7_ct2_staging_lifecycle envCt2Ok argsCt2 (by decide) (by decide)
    (by decide) (by decide)

/-- C8 (counterexample): the claim says the version-gate error names the
required and the actual versions.  `setup-ct2.py` aborts with a constant
message that names only the required version: running it under
interpreter version 3.7 exits 1 without network activity, but no printed
message contains the actual version `3.7`. -/
theorem c8_ct2_version_message_counterexample :
    verLt envCt2Old.version (3, 8) = true ∧
    (ct2_main envCt2Old argsCt2).exit = 1 ∧
    (ct2_main envCt2Old argsCt2).net = 0 ∧
    (ct2_main envCt2Old argsCt2).msgs =
      ["Error: Python 3.8 or newer is required."] ∧
    (ct2_main envCt2Old argsCt2).msgs.all
      (fun m => !(containsStr m "3.7")) = true := by
  decide

/-- C8 (amended): when the interpreter version is below the declared
minimum, both checking variants abort immediately with exit code 1 and
zero network operations; the error names the required version, and in the
coqui variant it also names the actual version (`setup-ct2.py` prints a
constant message that omits the actual version). -/
theorem c8_version_gate_no_network (cenv : Ct2Env) (cargs : Ct2Args)
    (qenv : CoquiEnv) (hc : verLt cenv.version (3, 8) = true)
    (hq : verLt qenv.version (3, 7) = true) :
    ((ct2_main cenv cargs).exit = 1 ∧ (ct2_main cenv cargs).net = 0 ∧
     (ct2_main cenv cargs).msgs =
       ["Error: Python 3.8 or newer is required."]) ∧
    ((coqui_main qenv).exit = 1 ∧ (coqui_main qenv).net = 0 ∧
     (∃ m ∈ (coqui_main qenv).msgs, containsStr m "3.7" = true) ∧
     (∃ m ∈ (coqui_main qenv).msgs,
       containsStr m qenv.versionStr = true)) := by
  refine ⟨by simp [ct2_main, hc], ?_, ?_, ?_, ?_⟩
  · simp [coqui_main, check_python_version, hq]
  · simp [coqui_main, check_python_version, hq]
  · refine ⟨"Error: Python 3.7 or higher is required", ?_, by decide⟩
    simp [coqui_main, check_python_version, hq]
  · refine ⟨"Current version: " ++ qenv.versionStr, ?_,
      containsStr_append_self _ _⟩
    simp [coqui_main, check_python_version, hq]

/-- C8 (witness): the amended claim under interpreter versions 3.7 (ct2)
and 2.7 (coqui). -/
theorem c8_version_gate_no_network_witness :
    ((ct2_main envCt2Old argsCt2).exit = 1 ∧
     (ct2_main envCt2Old argsCt2).net = 0 ∧
     (ct2_main envCt2Old argsCt2).msgs =
       ["Error: Python 3.8 or newer is required."]) ∧
    ((coqui_main envCoquiOld).exit = 1 ∧ (coqui_main envCoquiOld).net = 0 ∧
     (∃ m ∈ (coqui_main envCoquiOld).msgs, containsStr m "3.7" = true) ∧
     (∃ m ∈ (coqui_main envCoquiOld).msgs,
       containsStr m envCoquiOld.versionStr = true)) :=
  c8_version_gate_no_network envCt2Old argsCt2 envCoquiOld (by decide)
    (by decide)

/-- C9: missing-package handling.  `setup-ct2.py` follows mode (a): with
at least one required package missing (and the version gate passed) the
run aborts with exit 1 before any remote operation and prints exactly the
missing names and the pip command installing exactly them.
`setup-coqui.py` follows mode (b): it attempts a best-effort automated
install of the single well-known package `TTS` and re-verifies by
importing it, aborting with a non-zero exit when re-verification fails. -/
theorem c9_missing_package_handling (cenv : Ct2Env) (cargs : Ct2Args)
    (qenv : CoquiEnv) (h2 : verLt cenv.version (3, 8) = false)
    (hm : ct2_missing cenv ≠ []) (hqv : verLt qenv.version (3, 7) = false) :
    ((ct2_main cenv cargs).exit = 1 ∧ (ct2_main cenv cargs).net = 0 ∧
     (ct2_main cenv cargs).msgs =
       ["Error: Missing required packages: " ++
          String.intercalate ", " (ct2_missing cenv),
        "Please install them with: python -m pip install " ++
          String.intercalate " " (ct2_missing cenv)]) ∧
    ((coqui_main qenv).pips = ["TTS"] ∧
     (qenv.importOk = false → (coqui_main qenv).exit = 1)) := by
  constructor
  · cases hM : ct2_missing cenv with
    | nil => exact absurd hM hm
    | cons a l => refine ⟨?_, ?_, ?_⟩ <;> simp [ct2_main, h2, hM]
  · cases hi : qenv.installOk <;> cases him : qenv.importOk <;>
      simp [coqui_main, check_python_version, hqv, hi, him]

/-- C9 (witness): mode (a) with four packages missing, and mode (b) with
the TTS import failing after the install attempt. -/
theorem c9_missing_package_handling_witness :
    ((ct2_main envCt2MissingPkg argsCt2).exit = 1 ∧
     (ct2_main envCt2MissingPkg argsCt2).net = 0 ∧
     (ct2_main envCt2MissingPkg argsCt2).msgs =
       ["Error: Missing required packages: " ++
          String.intercalate ", " (ct2_missing envCt2MissingPkg),
        "Please install them with: python -m pip install " ++
          String.intercalate " " (ct2_missing envCt2MissingPkg)]) ∧
    ((coqui_main envCoquiNoTTS).pips = ["TTS"] ∧
     (envCoquiNoTTS.importOk = false →
       (coqui_main envCoquiNoTTS).exit = 1)) :=
  c9_missing_package_handling envCt2MissingPkg argsCt2 envCoquiNoTTS
    (by decide) (by decide) (by decide)

/-- C10: a successful direct-download run need not create the destination.
Extraction writes the archive's own top-level entries into the parent of
the destination and no later step checks that the destination appeared:
with a valid archive rooted at `other` while the URL-derived model name
is `m`, the run exits 0, `models/other` exists, and the destination
`models/m` does not. -/
theorem c10_vosk_success_without_destination :
    (vosk_main envVoskOther argsVoskM).exit = 0 ∧
    existsAt (vosk_main envVoskOther argsVoskM).fs
      (vosk_output_dir argsVoskM) = false ∧
    existsAt (vosk_main envVoskOther argsVoskM).fs
      ["models", "other"] = true := by
  decide
